import Mathlib

/-!
Verification of the versioninfo_helper module: the FILETIME/datetime codec
and the VERSIONINFO record assembler, embedded shallowly.

Times are modelled in integer microseconds. Python floor division and modulo
with a positive divisor coincide with Euclidean division and modulo on Int,
so the slash and percent operators of Int are used for divmod and for the
percent operator of Python wherever the divisor is a positive constant.
Truncation toward zero, as performed by the Python int() builtin on a float,
is Int.tdiv.
-/

namespace VersioninfoHelper

/-- January 1, 1970 as filetime. -/
def EPOCH_AS_FILETIME : Int := 116444736000000000

/-- Number of 100ns ticks per second. -/
def HUNDREDS_OF_NS : Int := 10000000

/-- Model of a Python datetime value: the wall-clock reading of its calendar
fields expressed in microseconds since 1970-01-01T00:00:00, together with
the utcoffset of its tzinfo in microseconds. The offset is none for a naive
value or for a tzinfo whose utcoffset is None. Python datetime has
microsecond resolution, and fixed-offset timezone objects permit offsets of
sub-second (down to microsecond) resolution, which this model keeps. -/
structure PyDatetime where
  wall : Int
  tz : Option Int
deriving DecidableEq

/-- Microsecond attribute of a datetime: microseconds within the current
second of the wall-clock reading, always in [0, 1000000). -/
def PyDatetime.microsecond (d : PyDatetime) : Int := d.wall % 1000000

/-- Python replace with tzinfo timezone.utc: calendar fields kept, offset 0. -/
def PyDatetime.replaceTzUtc (d : PyDatetime) : PyDatetime := { d with tz := some 0 }

/-- Instant denoted by a datetime, in microseconds since the Unix epoch,
reading a missing offset as 0. -/
def PyDatetime.instant (d : PyDatetime) : Int := d.wall - d.tz.getD 0

/-- Python astimezone(timezone.utc) on an aware datetime: the same instant
expressed with offset 0. -/
def PyDatetime.astimezoneUtc (d : PyDatetime) : PyDatetime :=
  { wall := d.wall - d.tz.getD 0, tz := some 0 }

/-- Python int(dt.timestamp()) for an aware datetime: timestamp() is the
exact number of seconds since the Unix epoch, a rational with microsecond
granularity, and int() truncates toward zero; hence t-division of the
microsecond count by 10^6. -/
def intTimestamp (d : PyDatetime) : Int := Int.tdiv d.instant 1000000

/-- Translation of datetime_to_filetime: a value whose tzinfo is None or
whose utcoffset is None (both are tz = none here) is forced to UTC, then
EPOCH_AS_FILETIME + int(dt.timestamp()) * HUNDREDS_OF_NS plus
dt.microsecond * 10. -/
def datetime_to_filetime (dt : PyDatetime) : Int :=
  let dt := if dt.tz.isNone then dt.replaceTzUtc else dt
  let filetime := EPOCH_AS_FILETIME + intTimestamp dt * HUNDREDS_OF_NS
  filetime + dt.microsecond * 10

/-- Python datetime.fromtimestamp(s, timezone.utc) at integer seconds s. -/
def fromtimestampUtc (s : Int) : PyDatetime := { wall := s * 1000000, tz := some 0 }

/-- Python replace(microsecond = m): substitutes the microsecond field of
the wall-clock reading. -/
def PyDatetime.replaceMicrosecond (d : PyDatetime) (m : Int) : PyDatetime :=
  { d with wall := d.wall - d.wall % 1000000 + m }

/-- Translation of filetime_to_datetime: s, ns100 = divmod of
filetime - EPOCH_AS_FILETIME by HUNDREDS_OF_NS (Python divmod floors, and
the divisor is a positive constant), then fromtimestamp at s with the
microsecond field replaced by ns100 // 10. -/
def filetime_to_datetime (filetime : Int) : PyDatetime :=
  let s := (filetime - EPOCH_AS_FILETIME) / HUNDREDS_OF_NS
  let ns100 := (filetime - EPOCH_AS_FILETIME) % HUNDREDS_OF_NS
  (fromtimestampUtc s).replaceMicrosecond (ns100 / 10)

/-- Translation of datetime_to_filetime_tuple: shift right by 32 bits
(floor division by 2^32; the value is nonnegative for any date of year 1601
or later) and mask with 0xFFFFFFFF (remainder modulo 2^32, Python bitwise
semantics on arbitrary integers). -/
def datetime_to_filetime_tuple (dt : PyDatetime) : Int × Int :=
  let filetime := datetime_to_filetime dt
  (filetime / 4294967296, filetime % 4294967296)

/-- Modelled from the spec formula for timestamp_to_filetime: EPOCH_OFFSET
plus the floor of the total seconds since the Unix epoch times 10_000_000
plus the microseconds times 10, a naive value first given the UTC zone.
Floor of the total seconds is floor division of the exact microsecond count
by 10^6, written with Int.fdiv to record that the spec demands a floor. -/
def spec_filetime_formula (dt : PyDatetime) : Int :=
  let dt := if dt.tz.isNone then dt.replaceTzUtc else dt
  EPOCH_AS_FILETIME + (Int.fdiv dt.instant 1000000) * HUNDREDS_OF_NS
    + dt.microsecond * 10

/-- Default for the mask argument, FileFlags.VS_FFI_FILEFLAGSMASK. -/
def FileFlags.VS_FFI_FILEFLAGSMASK : Int := 0x0000003F

/-- Default for the flags argument, FileFlags.VS_FF_None. -/
def FileFlags.VS_FF_None : Int := 0x00000000

/-- Default for the OS argument, FileOS.VOS_NT_WINDOWS32. -/
def FileOS.VOS_NT_WINDOWS32 : Int := 0x00040004

/-- Default for the fileType argument, FileType.VFT_APP. -/
def FileType.VFT_APP : Int := 0x00000001

/-- Default for the subtype argument, FileSubtype.VFT2_UNKNOWN. -/
def FileSubtype.VFT2_UNKNOWN : Int := 0x00000000

/-- Entry of a string table: a name and a value, mirroring the PyInstaller
StringStruct record constructor. -/
structure StringStructRec where
  name : String
  val : String
deriving DecidableEq

/-- PyInstaller StringTable record: a name and an ordered entry list. -/
structure StringTableRec where
  name : String
  kids : List StringStructRec
deriving DecidableEq

/-- PyInstaller VarStruct record: a name and an ordered integer list. -/
structure VarStructRec where
  name : String
  kids : List Nat
deriving DecidableEq

/-- PyInstaller FixedFileInfo record, holding the fixed header fields. -/
structure FixedFileInfoRec where
  filevers : List Int
  prodvers : List Int
  mask : Int
  flags : Int
  OS : Int
  fileType : Int
  subtype : Int
  date : Int × Int
deriving DecidableEq

/-- Child container of the top-level tree: a VarFileInfo record wraps
translation records, a StringFileInfo record wraps string tables. -/
inductive VIChild where
  | varFileInfo (kids : List VarStructRec)
  | stringFileInfo (kids : List StringTableRec)
deriving DecidableEq

/-- PyInstaller VSVersionInfo record: fixed file info plus child list. -/
structure VSVersionInfoRec where
  ffi : FixedFileInfoRec
  kids : List VIChild
deriving DecidableEq

/-- Uppercase hexadecimal digit character for a value below 16. -/
def hexDigit (n : Nat) : Char :=
  if n < 10 then Char.ofNat (48 + n) else Char.ofNat (55 + n)

/-- Hexadecimal digit list, most significant digit first, with explicit
fuel for structural recursion; the value to render never exceeds the fuel,
and each recursive step at least halves it, so the fuel never runs out. -/
def toHexDigitsAux (fuel : Nat) (n : Nat) : List Char :=
  match fuel with
  | 0 => []
  | fuel + 1 =>
    if n = 0 then [] else toHexDigitsAux fuel (n / 16) ++ [hexDigit (n % 16)]

/-- Hexadecimal digit list of a natural number, most significant digit
first; empty for zero. -/
def toHexDigits (n : Nat) : List Char := toHexDigitsAux n n

/-- Python format spec 04X: uppercase hexadecimal, zero padded on the left
to a width of four (wider values keep all their digits). -/
def hex4 (n : Nat) : String :=
  let ds := toHexDigits n
  String.mk (List.replicate (4 - ds.length) '0' ++ ds)

/-- Conditional append mirroring the statement pattern of the source: if the
optional value is not None, append one entry with the given name to the
accumulated entry list, else keep the list unchanged. -/
def appendOpt (ks : List StringStructRec) (n : String) (o : Option String) :
    List StringStructRec :=
  match o with
  | none => ks
  | some v => ks ++ [⟨n, v⟩]

/-- Translation of create_StringFileInfo_table. The name is the 04X
rendering of lang_id followed by the 04X rendering of charset_id; the entry
list appends each of the twelve well-known fields that is not None in
declared order, then every additional keyword pair in the order supplied. -/
def create_StringFileInfo_table (lang_id charset_id : Nat)
    (Comments CompanyName FileDescription FileVersion InternalName
      LegalCopyright LegalTrademarks OriginalFilename PrivateBuild
      ProductName ProductVersion SpecialBuild : Option String)
    (additional_strings : List (String × String)) : StringTableRec :=
  let name : String := hex4 lang_id ++ hex4 charset_id
  let kids : List StringStructRec := []
  let kids := appendOpt kids "Comments" Comments
  let kids := appendOpt kids "CompanyName" CompanyName
  let kids := appendOpt kids "FileDescription" FileDescription
  let kids := appendOpt kids "FileVersion" FileVersion
  let kids := appendOpt kids "InternalName" InternalName
  let kids := appendOpt kids "LegalCopyright" LegalCopyright
  let kids := appendOpt kids "LegalTrademarks" LegalTrademarks
  let kids := appendOpt kids "OriginalFilename" OriginalFilename
  let kids := appendOpt kids "PrivateBuild" PrivateBuild
  let kids := appendOpt kids "ProductName" ProductName
  let kids := appendOpt kids "ProductVersion" ProductVersion
  let kids := appendOpt kids "SpecialBuild" SpecialBuild
  let kids := kids ++ additional_strings.map (fun p => ⟨p.1, p.2⟩)
  ⟨name, kids⟩

/-- Names of the twelve keyword parameters of create_StringFileInfo_table,
in declared order. -/
def wellKnownKeys : List String :=
  ["Comments", "CompanyName", "FileDescription", "FileVersion",
   "InternalName", "LegalCopyright", "LegalTrademarks", "OriginalFilename",
   "PrivateBuild", "ProductName", "ProductVersion", "SpecialBuild"]

/-- Value bound to a keyword parameter by a Python call with the given
keyword argument list: the value paired with the name, none when the name
is absent. Python keyword argument names are unique within one call. -/
def kwlookup (kwargs : List (String × String)) (k : String) : Option String :=
  (kwargs.find? (fun p => p.1 == k)).map Prod.snd

/-- Python call create_StringFileInfo_table(lang_id, charset_id, **kwargs):
each declared keyword parameter receives the value bound to its own name
regardless of the position of that binding, and the bindings whose names
match no declared parameter flow into additional_strings in the order they
were supplied. -/
def callStringTable (lang_id charset_id : Nat)
    (kwargs : List (String × String)) : StringTableRec :=
  create_StringFileInfo_table lang_id charset_id
    (kwlookup kwargs "Comments") (kwlookup kwargs "CompanyName")
    (kwlookup kwargs "FileDescription") (kwlookup kwargs "FileVersion")
    (kwlookup kwargs "InternalName") (kwlookup kwargs "LegalCopyright")
    (kwlookup kwargs "LegalTrademarks") (kwlookup kwargs "OriginalFilename")
    (kwlookup kwargs "PrivateBuild") (kwlookup kwargs "ProductName")
    (kwlookup kwargs "ProductVersion") (kwlookup kwargs "SpecialBuild")
    (kwargs.filter (fun p => !(wellKnownKeys.contains p.1)))

/-- Modelled from the spec for the entry order contract: the supplied
well-known fields in their fixed declared order, absent ones omitted,
followed by the extra fields in the order they were supplied. -/
def orderedEntries (kwargs : List (String × String)) : List StringStructRec :=
  wellKnownKeys.filterMap
      (fun k => (kwlookup kwargs k).map (fun v => (⟨k, v⟩ : StringStructRec)))
    ++ (kwargs.filter (fun p => !(wellKnownKeys.contains p.1))).map
        (fun p => (⟨p.1, p.2⟩ : StringStructRec))

/-- Translation of create_VarStruct: the fixed name Translation and the
flattened integer list of the base pair followed by each additional pair. -/
def create_VarStruct (lang_id charset_id : Nat)
    (additional_pairs : List (Nat × Nat)) : VarStructRec :=
  let name : String := "Translation"
  let kids : List Nat := [lang_id, charset_id]
  let kids := additional_pairs.foldl (fun ks p => ks ++ [p.1, p.2]) kids
  ⟨name, kids⟩

/-- Date argument of create_VersionInfo: either a datetime to be converted,
or an already split (high, low) pair used verbatim. -/
inductive DateArg where
  | dt (d : PyDatetime)
  | ft (t : Int × Int)
deriving DecidableEq

/-- One entry of the strings argument: lang_id, charset_id and the fields
mapping that is splatted as keyword arguments into the table builder. -/
structure StringsBlock where
  lang_id : Nat
  charset_id : Nat
  fields : List (String × String)
deriving DecidableEq

/-- Failure of a Python assert statement. -/
inductive VIError where
  | assertionError
deriving DecidableEq

/-- Translation of create_VersionInfo. All arguments default to None; the
wall-clock read datetime.now(timezone.utc), performed only when date is
None, is modelled by the explicit parameter now. The two assert statements
become error results; the source loop over strings appends to string_infos
and var_infos in step, which equals the two maps below. -/
def create_VersionInfo
    (filevers : Option (List Int)) (prodvers : Option (List Int))
    (mask : Option Int) (flags : Option Int) (OS : Option Int)
    (fileType : Option Int) (subtype : Option Int)
    (date : Option DateArg) (strings : Option (List StringsBlock))
    (now : PyDatetime) : Except VIError VSVersionInfoRec :=
  let dwFileVersion_tuple := filevers.getD [0, 0, 0, 0]
  if ¬ ∀ i ∈ dwFileVersion_tuple, 0 ≤ i ∧ i < 65536 then .error .assertionError
  else
  let dwProductVersion_tuple := prodvers.getD dwFileVersion_tuple
  if ¬ ∀ i ∈ dwProductVersion_tuple, 0 ≤ i ∧ i < 65536 then .error .assertionError
  else
  let dwFileFlagsMask := mask.getD FileFlags.VS_FFI_FILEFLAGSMASK
  let dwFileFlags := flags.getD FileFlags.VS_FF_None
  let dwFileOS := OS.getD FileOS.VOS_NT_WINDOWS32
  let dwFileType := fileType.getD FileType.VFT_APP
  let dwFileSubtype := subtype.getD FileSubtype.VFT2_UNKNOWN
  let dwFileDate :=
    match date with
    | none => datetime_to_filetime_tuple now
    | some (.dt d) => datetime_to_filetime_tuple d
    | some (.ft t) => t
  let ffi : FixedFileInfoRec :=
    { filevers := dwFileVersion_tuple, prodvers := dwProductVersion_tuple,
      mask := dwFileFlagsMask, flags := dwFileFlags, OS := dwFileOS,
      fileType := dwFileType, subtype := dwFileSubtype, date := dwFileDate }
  let kids : List VIChild :=
    match strings with
    | none => []
    | some blocks =>
      let string_infos : List StringTableRec :=
        blocks.map (fun b => callStringTable b.lang_id b.charset_id b.fields)
      let var_infos : List VarStructRec :=
        blocks.map (fun b => create_VarStruct b.lang_id b.charset_id [])
      [.varFileInfo var_infos, .stringFileInfo string_infos]
  .ok { ffi := ffi, kids := kids }

/-! Evaluation lemmas for the time codec. -/

/-- Closed form of datetime_to_filetime on an aware value. -/
theorem datetime_to_filetime_aware (w o : Int) :
    datetime_to_filetime ⟨w, some o⟩ =
      EPOCH_AS_FILETIME + Int.tdiv (w - o) 1000000 * HUNDREDS_OF_NS
        + w % 1000000 * 10 := rfl

/-- A naive value is converted exactly like the same wall-clock reading
stamped with the UTC zone. -/
theorem datetime_to_filetime_naive (w : Int) :
    datetime_to_filetime ⟨w, none⟩ = datetime_to_filetime ⟨w, some 0⟩ := rfl

/-- Closed form of filetime_to_datetime. -/
theorem filetime_to_datetime_eq (f : Int) :
    filetime_to_datetime f =
      ⟨(f - EPOCH_AS_FILETIME) / 10000000 * 1000000
          - (f - EPOCH_AS_FILETIME) / 10000000 * 1000000 % 1000000
          + (f - EPOCH_AS_FILETIME) % 10000000 / 10,
        some 0⟩ := rfl

/-- Closed form of datetime_to_filetime_tuple. -/
theorem datetime_to_filetime_tuple_eq (dt : PyDatetime) :
    datetime_to_filetime_tuple dt =
      (datetime_to_filetime dt / 4294967296,
       datetime_to_filetime dt % 4294967296) := rfl

/-- Closed form of datetime_to_filetime on an aware value with a nonnegative
instant, where truncation toward zero agrees with Euclidean division. -/
theorem datetime_to_filetime_aware_nonneg (w o : Int) (h : 0 ≤ w - o) :
    datetime_to_filetime ⟨w, some o⟩ =
      EPOCH_AS_FILETIME + (w - o) / 1000000 * HUNDREDS_OF_NS
        + w % 1000000 * 10 := by
  rw [datetime_to_filetime_aware, Int.tdiv_eq_ediv h (by norm_num)]

/-- Applying the codec backward then forward restores every filetime at or
after the Unix epoch up to the truncation of its sub-microsecond digit. -/
theorem to_filetime_of_to_datetime (f : Int) (h : EPOCH_AS_FILETIME ≤ f) :
    datetime_to_filetime (filetime_to_datetime f) =
      f - (f - EPOCH_AS_FILETIME) % 10 := by
  simp only [EPOCH_AS_FILETIME] at h
  rw [filetime_to_datetime_eq,
    datetime_to_filetime_aware_nonneg _ _
      (by simp only [EPOCH_AS_FILETIME]; omega)]
  simp only [EPOCH_AS_FILETIME, HUNDREDS_OF_NS]
  omega

/-- C1: for a timezone-aware ts whose UTC offset is a whole number of
seconds and whose instant is at or after the Unix epoch, the composition
filetime_to_datetime of datetime_to_filetime yields exactly ts converted to
the UTC zone; at microsecond granularity nothing is lost. -/
theorem filetime_datetime_roundtrip (w o : Int) (ho : o % 1000000 = 0)
    (h : 0 ≤ w - o) :
    filetime_to_datetime (datetime_to_filetime ⟨w, some o⟩) =
      PyDatetime.astimezoneUtc ⟨w, some o⟩ := by
  rw [datetime_to_filetime_aware_nonneg _ _ h, filetime_to_datetime_eq]
  simp only [PyDatetime.astimezoneUtc, Option.getD, PyDatetime.mk.injEq,
    EPOCH_AS_FILETIME, HUNDREDS_OF_NS, and_true]
  omega

/-- Witness for C1 at the instant 2020-01-01T00:00:00 UTC. -/
theorem filetime_datetime_roundtrip_witness :
    filetime_to_datetime (datetime_to_filetime ⟨1577836800000000, some 0⟩) =
      PyDatetime.astimezoneUtc ⟨1577836800000000, some 0⟩ :=
  filetime_datetime_roundtrip 1577836800000000 0 (by decide) (by decide)

/-- C1 counterexample: the aware value 1969-12-31T23:59:59.500000+00:00 is
not restored by the round trip, because int() truncates the negative
timestamp toward zero; the result is one second late. -/
theorem filetime_datetime_roundtrip_counterexample :
    (⟨-500000, some 0⟩ : PyDatetime).tz ≠ none ∧
    filetime_to_datetime (datetime_to_filetime ⟨-500000, some 0⟩) ≠
      PyDatetime.astimezoneUtc ⟨-500000, some 0⟩ := by decide

/-- C2: the spec formula with floor holds whenever the instant of the
UTC-normalized value is at or after the Unix epoch, both for aware and for
naive values, and a naive value is always converted exactly as the same
wall-clock reading with the UTC zone attached. -/
theorem datetime_to_filetime_formula :
    (∀ w o : Int, 0 ≤ w - o →
        datetime_to_filetime ⟨w, some o⟩ = spec_filetime_formula ⟨w, some o⟩) ∧
    (∀ w : Int, 0 ≤ w →
        datetime_to_filetime ⟨w, none⟩ = spec_filetime_formula ⟨w, none⟩) ∧
    (∀ w : Int, datetime_to_filetime ⟨w, none⟩ = datetime_to_filetime ⟨w, some 0⟩) := by
  have heval : ∀ w o : Int, spec_filetime_formula ⟨w, some o⟩ =
      EPOCH_AS_FILETIME + Int.fdiv (w - o) 1000000 * HUNDREDS_OF_NS
        + w % 1000000 * 10 := fun _ _ => rfl
  have hevaln : ∀ w : Int, spec_filetime_formula ⟨w, none⟩ =
      spec_filetime_formula ⟨w, some 0⟩ := fun _ => rfl
  have key : ∀ w o : Int, 0 ≤ w - o →
      datetime_to_filetime ⟨w, some o⟩ = spec_filetime_formula ⟨w, some o⟩ := by
    intro w o h
    rw [datetime_to_filetime_aware_nonneg _ _ h, heval,
      Int.fdiv_eq_ediv _ (by norm_num)]
  refine ⟨key, ?_, fun w => datetime_to_filetime_naive w⟩
  intro w h
  rw [datetime_to_filetime_naive, hevaln]
  exact key w 0 (by omega)

/-- Witness for C2 at half a second after the Unix epoch and at a naive
reading. -/
theorem datetime_to_filetime_formula_witness :
    datetime_to_filetime ⟨500000, some 0⟩ = spec_filetime_formula ⟨500000, some 0⟩ ∧
    datetime_to_filetime ⟨42, none⟩ = datetime_to_filetime ⟨42, some 0⟩ :=
  ⟨datetime_to_filetime_formula.1 500000 0 (by decide),
   datetime_to_filetime_formula.2.2 42⟩

/-- C2 counterexample: at 1969-12-31T23:59:59.500000 UTC the code truncates
the timestamp toward zero while the spec formula floors it, so the two
differ by one second worth of ticks. -/
theorem datetime_to_filetime_formula_counterexample :
    datetime_to_filetime ⟨-500000, some 0⟩ ≠
      spec_filetime_formula ⟨-500000, some 0⟩ := by decide

/-- C5: for a 64-bit FILETIME at or after the Unix epoch, recomposing the
split produced by datetime_to_filetime_tuple of filetime_to_datetime gives
back the input with its sub-microsecond digit truncated: exactly the input
whenever the tick count past the epoch offset is a multiple of ten. -/
theorem split_filetime_recompose (f : Int) (h1 : EPOCH_AS_FILETIME ≤ f)
    (h2 : f < 18446744073709551616) :
    (datetime_to_filetime_tuple (filetime_to_datetime f)).1 * 4294967296 +
      (datetime_to_filetime_tuple (filetime_to_datetime f)).2 =
      f - (f - EPOCH_AS_FILETIME) % 10 := by
  rw [datetime_to_filetime_tuple_eq, to_filetime_of_to_datetime f h1]
  simp only [EPOCH_AS_FILETIME]
  omega

/-- Witness for C5 at the spec known value for 2020-01-01T00:00:00 UTC. -/
theorem split_filetime_recompose_witness :
    (datetime_to_filetime_tuple (filetime_to_datetime 132223104000000000)).1 *
        4294967296 +
      (datetime_to_filetime_tuple (filetime_to_datetime 132223104000000000)).2 =
      132223104000000000 - (132223104000000000 - EPOCH_AS_FILETIME) % 10 :=
  split_filetime_recompose 132223104000000000 (by decide) (by decide)

/-- C5 counterexample: five ticks past the epoch offset is a 64-bit
representable FILETIME, yet the recomposed split differs from it even
modulo 2^64, because the conversion drops sub-microsecond ticks. -/
theorem split_filetime_recompose_counterexample :
    ((datetime_to_filetime_tuple (filetime_to_datetime 116444736000000005)).1 *
          4294967296 +
        (datetime_to_filetime_tuple (filetime_to_datetime 116444736000000005)).2)
        % 18446744073709551616 ≠
      116444736000000005 % 18446744073709551616 := by decide

/-- C6: datetime_to_filetime is a function of the instant alone on every
pair of aware values whose UTC offsets are whole numbers of seconds: equal
instants give equal FILETIME integers. -/
theorem zone_offset_invariance (w1 o1 w2 o2 : Int) (h1 : o1 % 1000000 = 0)
    (h2 : o2 % 1000000 = 0) (hsame : w1 - o1 = w2 - o2) :
    datetime_to_filetime ⟨w1, some o1⟩ = datetime_to_filetime ⟨w2, some o2⟩ := by
  rw [datetime_to_filetime_aware, datetime_to_filetime_aware, hsame,
    show w1 % 1000000 = w2 % 1000000 by omega]

/-- Witness for C6: one instant read at UTC and at a one-hour offset. -/
theorem zone_offset_invariance_witness :
    datetime_to_filetime ⟨1577836800000000, some 0⟩ =
      datetime_to_filetime ⟨1577840400000000, some 3600000000⟩ :=
  zone_offset_invariance 1577836800000000 0 1577840400000000 3600000000
    (by decide) (by decide) (by decide)

/-- C6 counterexample: the instant of the Unix epoch expressed at offset
zero and at the sub-second offset +0:00:00.500000 (legal for Python fixed
offset timezones) maps to two different FILETIME integers, because the
microsecond field is read in local time. -/
theorem zone_offset_invariance_counterexample :
    (⟨500000, some 500000⟩ : PyDatetime).instant =
      (⟨0, some 0⟩ : PyDatetime).instant ∧
    datetime_to_filetime ⟨500000, some 500000⟩ ≠
      datetime_to_filetime ⟨0, some 0⟩ := by decide

/-- Inversion helper: an ok result of create_VersionInfo carries the child
list determined by the strings argument. -/
theorem create_VersionInfo_ok_kids (fv pv : Option (List Int))
    (mask flags OS fileType subtype : Option Int) (date : Option DateArg)
    (strings : Option (List StringsBlock)) (now : PyDatetime)
    (vi : VSVersionInfoRec)
    (hok : create_VersionInfo fv pv mask flags OS fileType subtype date
      strings now = .ok vi) :
    vi.kids =
      match strings with
      | none => []
      | some blocks =>
        [VIChild.varFileInfo
            (blocks.map fun b => create_VarStruct b.lang_id b.charset_id []),
         VIChild.stringFileInfo
            (blocks.map fun b => callStringTable b.lang_id b.charset_id b.fields)] := by
  simp only [create_VersionInfo] at hok
  split at hok
  · cases hok
  · split at hok
    · cases hok
    · cases strings <;> cases hok <;> rfl

/-- C3 amended: the assertion error is raised exactly when the resolved
filevers or the resolved prodvers contains an element outside the 16-bit
range; the element count is not validated. An error result carries no tree. -/
theorem version_tuple_range_check (fv pv : Option (List Int))
    (mask flags OS fileType subtype : Option Int) (date : Option DateArg)
    (strings : Option (List StringsBlock)) (now : PyDatetime) :
    create_VersionInfo fv pv mask flags OS fileType subtype date strings now
        = .error .assertionError ↔
      ¬ ((∀ i ∈ fv.getD [0, 0, 0, 0], 0 ≤ i ∧ i < 65536) ∧
         (∀ i ∈ pv.getD (fv.getD [0, 0, 0, 0]), 0 ≤ i ∧ i < 65536)) := by
  simp only [create_VersionInfo]
  split
  · next hc => simp [hc]
  · next hc =>
    split
    · next hc2 => simp [hc2]
    · next hc2 =>
      rw [not_not] at hc hc2
      simp only [reduceCtorEq, false_iff, not_not]
      exact ⟨hc, hc2⟩

/-- C3 counterexample: a five-element version tuple whose entries are all
inside the 16-bit range is accepted by create_VersionInfo without any
error, so the shape part of the validation claim fails on the code. -/
theorem version_tuple_shape_unchecked :
    ([0, 0, 0, 0, 0] : List Int).length ≠ 4 ∧
    (create_VersionInfo (some [0, 0, 0, 0, 0]) none none none none none none
        (some (.ft (0, 0))) none ⟨0, some 0⟩).isOk = true := by decide

/-- C4: an ok result built from a non-empty strings sequence has exactly
two children, one variable-info container holding one translation record
per block built from only that block, and one string-file-info container
holding one string table per block, in sequence order; with strings None
the child list is empty. -/
theorem strings_blocks_children :
    (∀ (fv pv : Option (List Int)) (mask flags OS fileType subtype : Option Int)
        (date : Option DateArg) (blocks : List StringsBlock) (now : PyDatetime)
        (vi : VSVersionInfoRec), blocks ≠ [] →
        create_VersionInfo fv pv mask flags OS fileType subtype date
            (some blocks) now = .ok vi →
        vi.kids =
          [VIChild.varFileInfo
              (blocks.map fun b => create_VarStruct b.lang_id b.charset_id []),
           VIChild.stringFileInfo
              (blocks.map fun b => callStringTable b.lang_id b.charset_id b.fields)]) ∧
    (∀ (fv pv : Option (List Int)) (mask flags OS fileType subtype : Option Int)
        (date : Option DateArg) (now : PyDatetime) (vi : VSVersionInfoRec),
        create_VersionInfo fv pv mask flags OS fileType subtype date
            none now = .ok vi →
        vi.kids = []) := by
  constructor
  · intro fv pv mask flags OS fileType subtype date blocks now vi _ hok
    exact create_VersionInfo_ok_kids fv pv mask flags OS fileType subtype date
      (some blocks) now vi hok
  · intro fv pv mask flags OS fileType subtype date now vi hok
    exact create_VersionInfo_ok_kids fv pv mask flags OS fileType subtype date
      none now vi hok

/-- Witness for C4 with one block and with the strings argument None. -/
theorem strings_blocks_children_witness :
    ({ ffi := { filevers := [0, 0, 0, 0], prodvers := [0, 0, 0, 0],
                mask := 0x3F, flags := 0, OS := 0x40004, fileType := 1,
                subtype := 0, date := (1, 2) },
       kids := [VIChild.varFileInfo [create_VarStruct 1033 1200 []],
                VIChild.stringFileInfo [callStringTable 1033 1200 []]] } :
      VSVersionInfoRec).kids =
      [VIChild.varFileInfo [create_VarStruct 1033 1200 []],
       VIChild.stringFileInfo [callStringTable 1033 1200 []]] :=
  strings_blocks_children.1 none none none none none none none
    (some (.ft (1, 2))) [⟨1033, 1200, []⟩] ⟨0, some 0⟩ _
    (by decide) (by rfl)

/-- C9: with no arguments supplied, the tree carries zero version tuples,
mask 0x3F, flags 0, OS 0x40004, fileType 1, subtype 0 and no children. -/
theorem default_tree (now : PyDatetime) :
    create_VersionInfo none none none none none none none none none now =
      .ok { ffi := { filevers := [0, 0, 0, 0], prodvers := [0, 0, 0, 0],
                     mask := 0x3F, flags := 0x0, OS := 0x40004,
                     fileType := 0x1, subtype := 0x0,
                     date := datetime_to_filetime_tuple now },
            kids := [] } := rfl

/-- C10: an ok result built from an empty strings sequence still has the
two containers, both empty, and every ok result built from a non-None
strings argument lists the variable-info container before the
string-file-info container. -/
theorem strings_empty_children :
    (∀ (fv pv : Option (List Int)) (mask flags OS fileType subtype : Option Int)
        (date : Option DateArg) (now : PyDatetime) (vi : VSVersionInfoRec),
        create_VersionInfo fv pv mask flags OS fileType subtype date
            (some []) now = .ok vi →
        vi.kids = [VIChild.varFileInfo [], VIChild.stringFileInfo []]) ∧
    (∀ (fv pv : Option (List Int)) (mask flags OS fileType subtype : Option Int)
        (date : Option DateArg) (blocks : List StringsBlock) (now : PyDatetime)
        (vi : VSVersionInfoRec),
        create_VersionInfo fv pv mask flags OS fileType subtype date
            (some blocks) now = .ok vi →
        ∃ vs ss, vi.kids = [VIChild.varFileInfo vs, VIChild.stringFileInfo ss]) := by
  constructor
  · intro fv pv mask flags OS fileType subtype date now vi hok
    exact create_VersionInfo_ok_kids fv pv mask flags OS fileType subtype date
      (some []) now vi hok
  · intro fv pv mask flags OS fileType subtype date blocks now vi hok
    exact ⟨_, _, create_VersionInfo_ok_kids fv pv mask flags OS fileType subtype
      date (some blocks) now vi hok⟩

/-- Witness for C10 with the empty strings sequence and default fields. -/
theorem strings_empty_children_witness :
    ({ ffi := { filevers := [0, 0, 0, 0], prodvers := [0, 0, 0, 0],
                mask := 0x3F, flags := 0, OS := 0x40004, fileType := 1,
                subtype := 0, date := (1, 2) },
       kids := [VIChild.varFileInfo [], VIChild.stringFileInfo []] } :
      VSVersionInfoRec).kids =
      [VIChild.varFileInfo [], VIChild.stringFileInfo []] :=
  strings_empty_children.1 none none none none none none none
    (some (.ft (1, 2))) ⟨0, some 0⟩ _ (by rfl)

/-- Rendering a value below 16 to the k-th power needs at most k digits. -/
theorem toHexDigitsAux_length_le :
    ∀ (k fuel n : Nat), n < 16 ^ k → n ≤ fuel →
      (toHexDigitsAux fuel n).length ≤ k := by
  intro k
  induction k with
  | zero =>
    intro fuel n hn _
    rw [pow_zero] at hn
    have h0 : n = 0 := by omega
    subst h0
    cases fuel <;> simp [toHexDigitsAux]
  | succ k ih =>
    intro fuel n hn hf
    cases fuel with
    | zero =>
      simp [toHexDigitsAux]
    | succ f =>
      simp only [toHexDigitsAux]
      by_cases h0 : n = 0
      · simp [h0]
      · rw [if_neg h0]
        have hdiv : n / 16 < 16 ^ k :=
          Nat.div_lt_of_lt_mul (by rw [← pow_succ']; exact hn)
        have hlt : n / 16 < n := Nat.div_lt_self (Nat.pos_of_ne_zero h0) (by norm_num)
        have := ih f (n / 16) hdiv (by omega)
        simp only [List.length_append, List.length_singleton]
        omega

/-- A value below 16 to the fourth power renders through hex4 as exactly
four characters. -/
theorem hex4_length (n : Nat) (h : n < 65536) : (hex4 n).length = 4 := by
  have hle : (toHexDigits n).length ≤ 4 :=
    toHexDigitsAux_length_le 4 n n (by norm_num; omega) (Nat.le_refl n)
  have hmk : ∀ cs : List Char, (String.mk cs).length = cs.length := fun _ => rfl
  simp only [hex4, toHexDigits] at hle ⊢
  rw [hmk, List.length_append, List.length_replicate]
  omega

/-- C7 amended: with no field arguments the table holds an empty entry
list, and its name is the 8-hex-digit zero-padded uppercase concatenation
of the locale code followed by the charset code (locale in the high four
hex digits, charset in the low four). -/
theorem string_table_name_format (lang charset : Nat) (h1 : lang < 65536)
    (h2 : charset < 65536) :
    (create_StringFileInfo_table lang charset none none none none none none
        none none none none none none []).name = hex4 lang ++ hex4 charset ∧
    ((create_StringFileInfo_table lang charset none none none none none none
        none none none none none none []).name).length = 8 ∧
    (create_StringFileInfo_table lang charset none none none none none none
        none none none none none none []).kids = [] := by
  refine ⟨rfl, ?_, rfl⟩
  have hmk : ∀ s t : String, (s ++ t).length = s.length + t.length :=
    fun _ _ => String.length_append _ _
  show (hex4 lang ++ hex4 charset).length = 8
  rw [hmk, hex4_length lang h1, hex4_length charset h2]

/-- Witness for C7 at the locale 0x0409 with the charset 0x04B0. -/
theorem string_table_name_format_witness :
    (create_StringFileInfo_table 1033 1200 none none none none none none
        none none none none none none []).name = hex4 1033 ++ hex4 1200 ∧
    ((create_StringFileInfo_table 1033 1200 none none none none none none
        none none none none none none []).name).length = 8 ∧
    (create_StringFileInfo_table 1033 1200 none none none none none none
        none none none none none none []).kids = [] :=
  string_table_name_format 1033 1200 (by decide) (by decide)

/-- C7 counterexample: at locale 1033 and charset 1200 the table name is
040904B0, the locale rendered high, not the claimed concatenation of the
charset followed by the locale, which would be 04B00409. -/
theorem string_table_name_format_counterexample :
    (create_StringFileInfo_table 1033 1200 none none none none none none
        none none none none none none []).name ≠
      hex4 1200 ++ hex4 1033 := by decide

/-- With unique keyword names, a lookup answers some v exactly when the
binding is present in the list. -/
theorem kwlookup_mem {l : List (String × String)} {k v : String}
    (hnd : (l.map Prod.fst).Nodup) : kwlookup l k = some v ↔ (k, v) ∈ l := by
  induction l with
  | nil => simp [kwlookup]
  | cons a l ih =>
    obtain ⟨a1, a2⟩ := a
    rw [List.map_cons, List.nodup_cons] at hnd
    by_cases hk : a1 = k
    · subst hk
      rw [kwlookup, List.find?_cons_of_pos _ (by simp)]
      constructor
      · intro hv
        have hv2 : a2 = v := by simpa using hv
        subst hv2
        exact List.mem_cons_self _ _
      · intro hm
        rcases List.mem_cons.mp hm with he | hm2
        · injection he with h1 h2
          subst h2
          simp
        · exact absurd (List.mem_map_of_mem Prod.fst hm2) hnd.1
    · rw [kwlookup, List.find?_cons_of_neg _ (by simp [hk]), ← kwlookup,
        ih hnd.2, List.mem_cons]
      have hne : ((k, v) : String × String) ≠ (a1, a2) := fun he => by
        cases he
        exact hk rfl
      simp [hne]

/-- Keyword lookup is invariant under permutation of the bindings as long
as the names are unique, as they are in any Python call. -/
theorem kwlookup_perm {kw1 kw2 : List (String × String)} (hperm : kw1.Perm kw2)
    (hnd : (kw1.map Prod.fst).Nodup) (k : String) :
    kwlookup kw1 k = kwlookup kw2 k := by
  have hnd2 : (kw2.map Prod.fst).Nodup := ((hperm.map Prod.fst).nodup_iff).mp hnd
  cases h1 : kwlookup kw1 k with
  | some v =>
    exact ((kwlookup_mem hnd2).mpr (hperm.mem_iff.mp
      ((kwlookup_mem hnd).mp h1))).symm
  | none =>
    cases h2 : kwlookup kw2 k with
    | none => rfl
    | some v =>
      have h3 := (kwlookup_mem hnd).mpr (hperm.mem_iff.mpr
        ((kwlookup_mem hnd2).mp h2))
      rw [h1] at h3
      cases h3

/-- The conditional append is the plain append of the optional entry. -/
theorem appendOpt_toList (ks : List StringStructRec) (n : String)
    (o : Option String) :
    appendOpt ks n o =
      ks ++ (o.map fun v => (⟨n, v⟩ : StringStructRec)).toList := by
  cases o <;> simp [appendOpt]

/-- One step of filterMap as an append of the optional image. -/
theorem filterMap_cons_toList {α β : Type} (f : α → Option β) (a : α)
    (l : List α) :
    List.filterMap f (a :: l) = (f a).toList ++ List.filterMap f l := by
  cases h : f a with
  | none => simp [List.filterMap_cons_none h]
  | some b => simp [List.filterMap_cons_some h]

/-- The entry list built by a keyword call is the ordered entry list of the
spec: well-known fields in declared order, then extras in call order. -/
theorem callStringTable_entries (lang charset : Nat)
    (kwargs : List (String × String)) :
    (callStringTable lang charset kwargs).kids = orderedEntries kwargs := by
  simp only [callStringTable, create_StringFileInfo_table, orderedEntries,
    wellKnownKeys, filterMap_cons_toList, List.filterMap_nil, appendOpt_toList,
    List.append_assoc, List.nil_append, List.append_nil]

/-- C8: the emitted entry list holds the supplied well-known fields in
their fixed declared order regardless of the order the keyword bindings
were passed in, fields bound to no value omitted, followed by the extra
fields in the order supplied: permuting the bindings while keeping the
relative order of the extra ones leaves the table unchanged. -/
theorem string_table_entry_order (lang charset : Nat)
    (kw1 kw2 : List (String × String)) (hperm : kw1.Perm kw2)
    (hnd : (kw1.map Prod.fst).Nodup)
    (hextra : kw1.filter (fun p => !(wellKnownKeys.contains p.1)) =
      kw2.filter (fun p => !(wellKnownKeys.contains p.1))) :
    callStringTable lang charset kw1 = callStringTable lang charset kw2 ∧
    (callStringTable lang charset kw1).kids = orderedEntries kw1 := by
  refine ⟨?_, callStringTable_entries lang charset kw1⟩
  simp only [callStringTable]
  rw [hextra, kwlookup_perm hperm hnd "Comments",
    kwlookup_perm hperm hnd "CompanyName",
    kwlookup_perm hperm hnd "FileDescription",
    kwlookup_perm hperm hnd "FileVersion",
    kwlookup_perm hperm hnd "InternalName",
    kwlookup_perm hperm hnd "LegalCopyright",
    kwlookup_perm hperm hnd "LegalTrademarks",
    kwlookup_perm hperm hnd "OriginalFilename",
    kwlookup_perm hperm hnd "PrivateBuild",
    kwlookup_perm hperm hnd "ProductName",
    kwlookup_perm hperm hnd "ProductVersion",
    kwlookup_perm hperm hnd "SpecialBuild"]

/-- Witness for C8: one extra field and two well-known fields passed in
scrambled order produce the same table as the sorted call, with entries in
declared order followed by the extra field. -/
theorem string_table_entry_order_witness :
    callStringTable 1033 1200
        [("X", "1"), ("CompanyName", "c"), ("Comments", "a")] =
      callStringTable 1033 1200
        [("Comments", "a"), ("CompanyName", "c"), ("X", "1")] ∧
    (callStringTable 1033 1200
        [("X", "1"), ("CompanyName", "c"), ("Comments", "a")]).kids =
      orderedEntries [("X", "1"), ("CompanyName", "c"), ("Comments", "a")] :=
  string_table_entry_order 1033 1200
    [("X", "1"), ("CompanyName", "c"), ("Comments", "a")]
    [("Comments", "a"), ("CompanyName", "c"), ("X", "1")]
    (by decide) (by decide) (by decide)

end VersioninfoHelper
